import Mathlib

/-
  Verification development for TruthScan (src/truthscan.py).

  Shallow embedding of the TruthScan pipeline: the synthetic data
  generators (flight, military, social), the best-effort web fetcher,
  the social-media orchestration phase, the per-phase try/except
  structure and the report summary.

  Randomness is modelled by an explicit draw stream `s : Nat → Nat`:
  every call of Python's `random.randint(lo, hi)` is embedded as
  `randint lo hi (s k)` at a fresh stream position `k`, with
  `randint lo hi d = lo + d % (hi + 1 - lo)`, so that exactly the
  values of the inclusive interval `[lo, hi]` are reachable as `d`
  ranges over `Nat` — Python's `randint` is inclusive on both ends.
  `random.choice(xs)` is embedded as indexing by `d % xs.length`.
  Dates (`datetime.now`, `timedelta(days=...)`, `strftime('%Y-%m-%d')`)
  are modelled as integer day numbers: `today : Int` is the current
  day, subtracting a `timedelta` of `n` days is subtraction of `n`,
  and the `YYYY-MM-DD` rendering of an instant is abstracted to the
  day number itself (the rendering is injective and monotone on days,
  so interval membership is preserved).
-/

set_option autoImplicit false

namespace TruthScan

/-- Embedding of Python `random.randint(lo, hi)` (inclusive on both ends):
the draw `d` selects a value of `[lo, hi]`. -/
def randint (lo hi d : Nat) : Nat := lo + d % (hi + 1 - lo)

theorem randint_ge (lo hi d : Nat) : lo ≤ randint lo hi d := Nat.le_add_right _ _

theorem randint_le {lo hi : Nat} (d : Nat) (h : lo ≤ hi) : randint lo hi d ≤ hi := by
  have hpos : 0 < hi + 1 - lo := by omega
  have := Nat.mod_lt d hpos
  unfold randint
  omega

/-- Embedding of Python `random.choice(xs)`: the draw selects an index. -/
def pychoice {α : Type} [Inhabited α] (xs : List α) (d : Nat) : α :=
  xs.getD (d % xs.length) default

theorem pychoice_mem {α : Type} [Inhabited α] (xs : List α) (d : Nat) (h : xs ≠ []) :
    pychoice xs d ∈ xs := by
  unfold pychoice
  have hlen : 0 < xs.length := List.length_pos.mpr h
  have hidx : d % xs.length < xs.length := Nat.mod_lt d hlen
  rw [List.getD_eq_getElem _ _ hidx]
  exact xs.getElem_mem hidx

/-! ## Synthetic flight data (`_generate_synthetic_flight_data`, lines 234-257) -/

structure FlightRecord where
  date : Int
  aircraft_type : String
  altitude : Nat
  speed : Nat
  pattern : String
  transponder : String
  notes : String
  synthetic : Bool
  deriving Repr, DecidableEq, Inhabited

/-- The `mil_aircraft` table of `_generate_synthetic_flight_data`. -/
def mil_aircraft : List String :=
  ["C-130", "F-16", "MiG-29", "Su-30MKI", "Mi-17", "CH-47", "P-8I", "E-2C"]

/-- One loop iteration of `_generate_synthetic_flight_data`: record `i`
consumes four draws (date, aircraft, altitude, speed, in source order). -/
def flightRecordAt (today : Int) (days : Nat) (s : Nat → Nat) (i : Nat) : FlightRecord :=
  let is_unusual := i == 0
  { date := today - Int.ofNat (randint 0 days (s (4 * i)))
    aircraft_type := pychoice mil_aircraft (s (4 * i + 1))
    altitude := if is_unusual then randint 5000 10000 (s (4 * i + 2))
                else randint 15000 35000 (s (4 * i + 2))
    speed := if is_unusual then randint 200 350 (s (4 * i + 3))
             else randint 350 500 (s (4 * i + 3))
    pattern := if is_unusual then "Unusual circling pattern" else "Standard transit"
    transponder := if is_unusual then "Intermittent" else "Active"
    notes := if is_unusual then "Unusual activity - requires verification"
             else "Normal military movement"
    synthetic := true }

/-- `_generate_synthetic_flight_data(area_name)`: `for i in range(5)` building
one record per iteration.  The `area_name` argument is unused by the source
body, so it is not a parameter here. -/
def generate_synthetic_flight_data (today : Int) (days : Nat) (s : Nat → Nat) :
    List FlightRecord :=
  (List.range 5).map (flightRecordAt today days s)

/-! ## Synthetic military data (`_generate_synthetic_military_data`, lines 320-349) -/

structure MilitaryRecord where
  date : Int
  type : String
  significance : String
  description : String
  confidence : String
  synthetic : Bool
  deriving Repr, DecidableEq, Inhabited

/-- The `activities` table: activity type paired with its significance label. -/
def activities : List (String × String) :=
  [("Normal operations", "Low"),
   ("Training exercise", "Low"),
   ("Increased readiness", "Medium"),
   ("Alert status change", "Medium"),
   ("Unusual deployment", "High")]

/-- Embedding of `random.choices(activities, weights=[0.4, 0.3, 0.15, 0.1, 0.05])[0]`:
a uniform draw `u % 100` in `[0, 100)` is mapped to the category index whose
cumulative-weight bin (thresholds 40, 70, 85, 95, 100) it falls in, so the
share of draw space selecting index `j` is exactly the weight of `j`. -/
def weightedIndex (u : Nat) : Nat :=
  if u % 100 < 40 then 0
  else if u % 100 < 70 then 1
  else if u % 100 < 85 then 2
  else if u % 100 < 95 then 3
  else 4

/-- One loop iteration of `_generate_synthetic_military_data`: record `i`
consumes two draws (activity-type choice, then date, in source order). -/
def militaryRecordAt (base_name : String) (today : Int) (days : Nat) (s : Nat → Nat)
    (i : Nat) : MilitaryRecord :=
  let activity_type := activities.getD (weightedIndex (s (2 * i))) ("", "")
  { date := today - Int.ofNat (randint 0 days (s (2 * i + 1)))
    type := activity_type.1
    significance := activity_type.2
    description := activity_type.1 ++ " observed at " ++ base_name
    confidence := "Medium - requires verification"
    synthetic := true }

/-- `_generate_synthetic_military_data(base_name, base_type)`: `for i in range(5)`.
The `base_type` argument is unused by the source body. -/
def generate_synthetic_military_data (base_name : String) (today : Int) (days : Nat)
    (s : Nat → Nat) : List MilitaryRecord :=
  (List.range 5).map (militaryRecordAt base_name today days s)

/-! ## Synthetic social media (`_generate_synthetic_social_media`, lines 443-512)

Placeholder braces of the Python templates are kept verbatim in the strings
below (written with hex escapes). -/

structure SocialPost where
  platform : String
  user : String
  content : String
  date : Int
  synthetic : Bool
  source : String
  deriving Repr, DecidableEq, Inhabited

/-- Embedding of Python's substring test `sub in s`. -/
def pyIn (sub s : String) : Bool := decide (sub.data <:+: s.data)

/-- The `templates["conflict"]` list. -/
def conflictTemplates : List String :=
  ["Reports of \x7bintensity\x7d tensions between India and Pakistan near \x7blocation\x7d. #IndoPak",
   "Military analysts watching \x7blocation\x7d border situation closely. No confirmation of strikes. #IndoPak",
   "\x7bofficial\x7d denies reports of conflict escalation between India and Pakistan.",
   "Unconfirmed reports of \x7bactivity\x7d near \x7blocation\x7d. Awaiting official statement.",
   "Satellite imagery shows no evidence of \x7bclaimed_activity\x7d at \x7blocation\x7d despite online rumors."]

/-- The `templates["nuclear"]` list. -/
def nuclearTemplates : List String :=
  ["Pakistan\x27s nuclear facilities remain under normal operations. Claims of attacks are unverified.",
   "Security increased at \x7blocation\x7d nuclear site, but no incidents reported. Standard procedure.",
   "Misinformation spreading about Pakistani nuclear facilities. No evidence of any strikes.",
   "Analysts confirm no unusual activity at \x7blocation\x7d based on available satellite imagery.",
   "\x7bofficial\x7d statement: \x27All nuclear facilities secure and operational. Dismiss false reports.\x27"]

/-- The `templates["military"]` list. -/
def militaryTemplates : List String :=
  ["Military movements observed near \x7blocation\x7d, consistent with routine \x7bexercise_type\x7d exercises.",
   "Indian Air Force denies conducting any operations across Pakistani airspace.",
   "Pakistan military on heightened alert near \x7blocation\x7d, but no conflict reported.",
   "Defense analysts: Claims of airstrikes lack credible evidence. Likely misinformation.",
   "Routine troop rotations misinterpreted as conflict preparation. Situation normal."]

/-- Lines 472-477: pick the template category by keyword matching on the term. -/
def templateCategory (search_term : String) : String :=
  if pyIn "nuclear" search_term.toLower then "nuclear"
  else if ["military", "airstrike", "alert"].any (fun t => pyIn t search_term.toLower)
  then "military"
  else "conflict"

/-- Lookup `templates[template_category]`. -/
def templatesFor (category : String) : List String :=
  if category == "nuclear" then nuclearTemplates
  else if category == "military" then militaryTemplates
  else conflictTemplates

/-- The first `"location"` value list of the `variables` dict literal
(line 482) — shadowed by the later duplicate key. -/
def firstLocationList : List String :=
  ["Punjab border", "Kashmir region", "LoC", "Lahore sector", "Sialkot frontier"]

/-- The second `"location"` value list of the `variables` dict literal
(line 487). -/
def secondLocationList : List String :=
  ["Kahuta", "Sargodha", "Kamra", "Chashma", "Karachi nuclear plant"]

/-- The `variables` dict literal of lines 480-488 written as the sequence of
its key/value entries, in source order, with the `"location"` key appearing
twice.  The first `"location"` value is a parameter so that its (ir)relevance
to the generator can be stated. -/
def variablesLiteral (firstLoc : List String) : List (String × List String) :=
  [("intensity", ["growing", "moderate", "concerning", "limited", "alleged"]),
   ("location", firstLoc),
   ("official", ["Pakistani Foreign Ministry", "Indian Defense Ministry",
                 "Military spokesperson", "Intelligence sources", "ISPR"]),
   ("activity", ["troop movements", "surveillance flights", "radar activity",
                 "military exercises", "border patrols"]),
   ("claimed_activity", ["airstrikes", "missile impacts", "drone operations",
                         "special forces activity", "artillery fire"]),
   ("exercise_type", ["defense", "readiness", "annual", "counter-terrorism",
                      "joint forces"]),
   ("location", secondLocationList)]

/-- One insertion step of Python dict-literal construction: a repeated key
keeps its original position but takes the new value. -/
def dictInsert : List (String × List String) → String → List String →
    List (String × List String)
  | [], k, v => [(k, v)]
  | (k', v') :: rest, k, v =>
      if k == k' then (k', v) :: rest else (k', v') :: dictInsert rest k v

/-- Python dict-literal construction: entries inserted left to right. -/
def dictOfLiteral (entries : List (String × List String)) :
    List (String × List String) :=
  entries.foldl (fun d kv => dictInsert d kv.1 kv.2) []

/-- The `variables` dict as the `for var_name, var_options in variables.items()`
loop observes it. -/
def variablesDict (firstLoc : List String) : List (String × List String) :=
  dictOfLiteral (variablesLiteral firstLoc)

/-- Lines 495-497: for each dict item in order, if the placeholder occurs in
the template, replace every occurrence by one uniformly chosen option.
Item number `j` (0-based) uses draw position `idx + j`. -/
def substituteVars (s : Nat → Nat) : List (String × List String) → Nat → String → String
  | [], _, t => t
  | (name, opts) :: rest, idx, t =>
      let placeholder := "\x7b" ++ name ++ "\x7d"
      let t' := if pyIn placeholder t then t.replace placeholder (pychoice opts (s idx)) else t
      substituteVars s rest (idx + 1) t'

/-- One loop iteration of `_generate_synthetic_social_media` (lines 491-510):
post `i` consumes a template draw, up to six substitution draws, a date draw
and a username draw (static positions `10*i .. 10*i+9`). -/
def socialPostAt (firstLoc : List String) (term : String) (today : Int) (days : Nat)
    (s : Nat → Nat) (i : Nat) : SocialPost :=
  let template := pychoice (templatesFor (templateCategory term)) (s (10 * i))
  let content := substituteVars s (variablesDict firstLoc) (10 * i + 1) template
  { platform := "Twitter (synthetic)"
    user := "Synthetic_User_" ++ toString (randint 1000 9999 (s (10 * i + 9)))
    content := content
    date := today - Int.ofNat (randint 0 days (s (10 * i + 8)))
    synthetic := true
    source := "Algorithmically generated for analysis" }

/-- `_generate_synthetic_social_media(search_term)` with the first
`"location"` list as a parameter. -/
def generate_synthetic_social_mediaVia (firstLoc : List String) (term : String)
    (today : Int) (days : Nat) (s : Nat → Nat) : List SocialPost :=
  (List.range 5).map (socialPostAt firstLoc term today days s)

/-- `_generate_synthetic_social_media(search_term)` as in the source, with the
literal first `"location"` list. -/
def generate_synthetic_social_media (term : String) (today : Int) (days : Nat)
    (s : Nat → Nat) : List SocialPost :=
  generate_synthetic_social_mediaVia firstLocationList term today days s

/-! ## Best-effort web fetcher (`_scrape_social_media`, lines 386-441)

The network world is modelled per endpoint: an attempt either fails
(request exception or non-200 status — both make the loop move on), or
succeeds with the list of `timeline-item` divs found in the markup.  A div
either parses to a `(username, content, date)` triple or raises during
parsing (`none`), in which case it is skipped. -/

structure RawTweet where
  username : String
  content : String
  date : Int
  deriving Repr, DecidableEq, Inhabited

inductive FetchOutcome where
  /-- Request exception or non-200 status code. -/
  | fail : FetchOutcome
  /-- Status 200; the parsed `timeline-item` divs (a `none` entry is a div
  whose per-tweet parse raises and is skipped). -/
  | ok : List (Option RawTweet) → FetchOutcome
  deriving Repr, DecidableEq, Inhabited

/-- The `nitter_instances` list (lines 390-394). -/
def nitter_instances : List String :=
  ["https://nitter.net", "https://nitter.lacontrevoie.fr", "https://nitter.poast.org"]

/-- Lines 412-429: build the tweet dicts from the first 10 divs, skipping
divs whose parse raises. -/
def parseTweets (instanceUrl : String) (divs : List (Option RawTweet)) : List SocialPost :=
  (divs.take 10).filterMap (fun d =>
    d.map (fun t =>
      { platform := "Twitter"
        user := t.username
        content := t.content
        date := t.date
        synthetic := false
        source := "Nitter scrape via " ++ instanceUrl }))

/-- The `for instance in nitter_instances` loop (lines 397-435): on a failed
attempt or an empty div list, continue with the next endpoint; on the first
endpoint with at least one div, parse and return immediately. -/
def scrapeLoop : List (String × FetchOutcome) → List SocialPost
  | [] => []
  | (_, FetchOutcome.fail) :: rest => scrapeLoop rest
  | (url, FetchOutcome.ok divs) :: rest =>
      if divs.isEmpty then scrapeLoop rest else parseTweets url divs

/-- `_scrape_social_media(search_term)` given the per-endpoint world
`world : String → FetchOutcome`. -/
def scrape_social_media (world : String → FetchOutcome) : List SocialPost :=
  scrapeLoop (nitter_instances.map (fun u => (u, world u)))

/-! ## Social-media phase (`analyze_social_media`, lines 351-384) -/

/-- One sub-record of the `social_media` collection (lines 376-381).
The `date_range` field is carried by the run configuration and omitted
here; it is shared by all sub-records. -/
structure SearchResult where
  search_term : String
  results_count : Nat
  posts : List SocialPost
  deriving Repr, DecidableEq, Inhabited

/-- The `search_terms` table (lines 356-362). -/
def search_terms : List String :=
  ["India Pakistan conflict", "Pakistan nuclear facility", "Indian airstrike Pakistan",
   "Pakistan military alert", "India Pakistan border tension"]

/-- The body of the `for term in search_terms` loop (lines 364-382), for one
term: fetch, fall back to the generator when the fetch is empty and synthetic
mode is on, and record the term only when the final list is non-empty. -/
def socialTermStep (include_synthetic : Bool) (fetch gen : String → List SocialPost)
    (term : String) : Option SearchResult :=
  let tweets := fetch term
  let tweets := if tweets.isEmpty && include_synthetic then gen term else tweets
  if tweets.isEmpty then none
  else some { search_term := term, results_count := tweets.length, posts := tweets }

/-- `analyze_social_media`: the loop over the five search terms, appending a
sub-record exactly when the step produces one. -/
def analyze_social_media (include_synthetic : Bool)
    (fetch gen : String → List SocialPost) : List SearchResult :=
  search_terms.filterMap (socialTermStep include_synthetic fetch gen)

/-! ## Reference tables of the other phases

Coordinates are static floating-point literals used only inside URL
templates; they are immaterial to every claim and omitted from the
embedded tables. -/

/-- Site names of the `nuclear_sites` table (lines 93-99). -/
def nuclear_sites : List String :=
  ["Kahuta (Khan Research Laboratories)", "Khushab Nuclear Complex",
   "Chashma Nuclear Power Plant", "Karachi Nuclear Power Plant (KANUPP)",
   "Kundian Nuclear Complex"]

/-- The `areas` table of `analyze_flight_data` (lines 181-185): name and bounds. -/
def areas : List (String × String) :=
  [("Kahuta Region", "33.5-33.7,73.3-73.5"),
   ("Rawalpindi Air Base", "33.6-33.65,73.0-73.1"),
   ("Indian Border Area (Punjab)", "32.0-33.0,74.5-75.0")]

/-- The `bases` table of `analyze_military_movements` (lines 264-270):
name and type. -/
def bases : List (String × String) :=
  [("Sargodha Air Base", "Pakistani Air Force"),
   ("Kamra Air Base", "Pakistani Air Force"),
   ("Masroor Air Base", "Pakistani Air Force"),
   ("Pathankot Air Base", "Indian Air Force"),
   ("Adampur Air Base", "Indian Air Force")]

/-! ## Per-entry exception structure of the four phase loops

An exception raised while processing one table entry is modelled by the
entry body returning `Except.error`.  The satellite loop (lines 101-136)
wraps its whole body in `try/except`, so a failing entry is skipped and
the loop continues.  The flight loop (lines 187-230), the military loop
(lines 272-316) and the social loop (lines 364-382) contain no `try`
around the entry body, so an exception raised there propagates out of
the loop (aborting the phase and the run); the social phase is special
only in that the fetcher catches its own errors internally
(`_scrape_social_media`, lines 388 and 439-441, returns `[]`). -/

/-- The satellite loop shape: `for site in nuclear_sites: try: ... except: log`.
A failing entry contributes nothing; the loop always finishes. -/
def satellitePhaseLoop {α R : Type} (body : α → Except String R) : List α → List R
  | [] => []
  | e :: rest =>
      match body e with
      | Except.ok r => r :: satellitePhaseLoop body rest
      | Except.error _ => satellitePhaseLoop body rest

/-- The flight/military/social loop shape: `for entry in table: ...` with no
handler around the body, accumulating appended results; the first failing
entry aborts the whole loop. -/
def uncaughtPhaseLoop {α R : Type} (body : α → Except String R) :
    List α → List R → Except String (List R)
  | [], acc => Except.ok acc
  | e :: rest, acc =>
      match body e with
      | Except.ok r => uncaughtPhaseLoop body rest (acc ++ [r])
      | Except.error msg => Except.error msg

/-! ## Run configuration and dates (`TruthScan.__init__`, lines 52-72) -/

structure RunConfig where
  claim : String
  days : Nat
  include_synthetic : Bool
  /-- `datetime.now()` as a day number. -/
  today : Int
  deriving Repr, DecidableEq, Inhabited

/-- Line 56: `(datetime.now() - timedelta(days=days)).strftime('%Y-%m-%d')`. -/
def start_date (cfg : RunConfig) : Int := cfg.today - Int.ofNat cfg.days

/-- Line 57: `datetime.now().strftime('%Y-%m-%d')`. -/
def end_date (cfg : RunConfig) : Int := cfg.today

/-! ## Report summary (`generate_summary`, lines 514-570) -/

/-- The `self.results` dict as far as the serializer reads it.  The satellite,
flight and military sub-record payloads (static link templates and tips) are
immaterial to the summary, which only takes the lengths of those lists; they
are elided to their identifying fields. -/
structure Results where
  claim : String
  analysis_date : String
  satellite_analysis : List String
  flight_data : List (String × Option (List FlightRecord))
  military_movements : List (String × Option (List MilitaryRecord))
  social_media : List SearchResult
  deriving Repr, DecidableEq, Inhabited

/-- Line 525: `sum(term["results_count"] for term in self.results["social_media"])
if self.results["social_media"] else 0`. -/
def socialPostsCount (social : List SearchResult) : Nat :=
  if social.isEmpty then 0 else (social.map SearchResult.results_count).sum

/-- The ASCII-art banner (lines 22-33); its glyph content is immaterial to
every claim and elided. -/
def TRUTHSCAN_LOGO : String := "\nTRUTHSCAN banner art\n"

/-- The fixed CONCLUSION sentence of the summary template (line 549). -/
def conclusionSentence : String :=
  "Based on available free data sources, there is no credible evidence supporting the claim."

/-- The summary f-string of lines 528-540 up to the interpolation of
`social_posts` (exclusive). -/
def summaryHeader (cfg : RunConfig) (r : Results) : String :=
  TRUTHSCAN_LOGO
  ++ "\n\nTRUTHSCAN ANALYSIS REPORT\n=========================\nClaim: " ++ r.claim
  ++ "\nAnalysis date: " ++ r.analysis_date
  ++ "\nDate range analyzed: " ++ toString (start_date cfg) ++ " to " ++ toString (end_date cfg)
  ++ "\n\nANALYSIS SCOPE:\n- Satellite imagery analysis of "
  ++ toString r.satellite_analysis.length
  ++ " nuclear sites\n- Flight data analysis for " ++ toString r.flight_data.length
  ++ " geographic areas\n- Military movement monitoring at "
  ++ toString r.military_movements.length
  ++ " military bases\n- Social media analysis of " ++ toString r.social_media.length
  ++ " search terms ("

/-- Summary lines 540-547: the tail of the scope block and the KEY FINDINGS
block (all constant text). -/
def summaryFindings : String :=
  " posts)\n\nKEY FINDINGS:\n"
  ++ "1. Satellite imagery: Links provided to free Sentinel Hub and Google Maps imagery for all nuclear sites\n"
  ++ "2. Flight data: Free alternatives to paid flight tracking services provided\n"
  ++ "3. Military movements: Analysis of activity at key military installations\n"
  ++ "4. Social media: Analysis of relevant posts and trends\n\n"

/-- Summary lines 550-558: everything after the CONCLUSION sentence
(all constant text). -/
def summaryAdvice : String :=
  "To perform more definitive analysis, consider:\n"
  ++ "- Purchasing commercial satellite imagery\n- Using paid flight tracking services\n"
  ++ "- Engaging professional military analysts\n- Accessing official social media APIs\n\n"
  ++ "NOTE: This analysis used free alternatives to paid services. Some synthetic data has been included\n"
  ++ "for demonstration purposes, clearly marked as \"synthetic\" in the detailed results.\n"

/-- The summary f-string of lines 528-558: the only non-constant pieces are
the claim, the analysis date, the date range and the five interpolated
counts. -/
def summaryText (cfg : RunConfig) (r : Results) : String :=
  summaryHeader cfg r ++ toString (socialPostsCount r.social_media)
  ++ summaryFindings ++ "CONCLUSION:\n" ++ conclusionSentence ++ "\n" ++ summaryAdvice

/-! # Theorems -/

/-! ## Helper lemmas -/

theorem rangeMap_getD {α : Type} [Inhabited α] (f : Nat → α) (n i : Nat) (h : i < n) :
    ((List.range n).map f).getD i default = f i := by
  rw [List.getD_eq_getElem _ _ (by simpa using h)]
  simp

theorem rangeMap_mem {α : Type} {f : Nat → α} {n : Nat} {r : α}
    (h : r ∈ (List.range n).map f) : ∃ i, i < n ∧ r = f i := by
  rcases List.mem_map.mp h with ⟨i, hi, rfl⟩
  exact ⟨i, List.mem_range.mp hi, rfl⟩

theorem randint_zero_le (days d : Nat) : randint 0 days d ≤ days :=
  randint_le d (Nat.zero_le days)

/-- A date drawn as `today - randint 0 days _` lies in `[today - days, today]`. -/
theorem synthDate_mem (today : Int) (days d : Nat) :
    today - Int.ofNat days ≤ today - Int.ofNat (randint 0 days d) ∧
      today - Int.ofNat (randint 0 days d) ≤ today := by
  have h := randint_zero_le days d
  constructor
  · have : (Int.ofNat (randint 0 days d)) ≤ Int.ofNat days := Int.ofNat_le.mpr h
    omega
  · have : (0 : Int) ≤ Int.ofNat (randint 0 days d) := Int.ofNat_nonneg _
    omega

/-! ## C2 — synthetic flight generation profiles -/

/-- C2 counterexample: Python's `random.randint(5000, 10000)` is inclusive on
both ends, so the draw that selects the maximum makes the first record's
altitude exactly 10000 — outside the half-open interval `[5000, 10000)`
asserted by the claim. -/
theorem C2_flight_intervals_cex :
    ((generate_synthetic_flight_data 0 7 (fun _ => 5000)).getD 0 default).altitude = 10000 ∧
      ¬ ((generate_synthetic_flight_data 0 7 (fun _ => 5000)).getD 0 default).altitude < 10000 := by
  constructor
  · decide
  · decide

/-- C2 (amended: the four bands are the inclusive intervals `[5000, 10000]`,
`[200, 350]`, `[15000, 35000]` and `[350, 500]` sampled by `random.randint`):
for every area, window and draw stream, synthetic flight generation produces
exactly 5 records; the first record has altitude in `[5000, 10000]` and speed
in `[200, 350]` with transponder `"Intermittent"` and pattern
`"Unusual circling pattern"`; each of the remaining four records has altitude
in `[15000, 35000]` and speed in `[350, 500]` with transponder `"Active"` and
pattern `"Standard transit"`. -/
theorem C2_flight_generation_profiles (today : Int) (days : Nat) (s : Nat → Nat) :
    (generate_synthetic_flight_data today days s).length = 5 ∧
    (5000 ≤ ((generate_synthetic_flight_data today days s).getD 0 default).altitude ∧
     ((generate_synthetic_flight_data today days s).getD 0 default).altitude ≤ 10000 ∧
     200 ≤ ((generate_synthetic_flight_data today days s).getD 0 default).speed ∧
     ((generate_synthetic_flight_data today days s).getD 0 default).speed ≤ 350 ∧
     ((generate_synthetic_flight_data today days s).getD 0 default).transponder = "Intermittent" ∧
     ((generate_synthetic_flight_data today days s).getD 0 default).pattern = "Unusual circling pattern") ∧
    (∀ i : Nat, 1 ≤ i → i < 5 →
     15000 ≤ ((generate_synthetic_flight_data today days s).getD i default).altitude ∧
     ((generate_synthetic_flight_data today days s).getD i default).altitude ≤ 35000 ∧
     350 ≤ ((generate_synthetic_flight_data today days s).getD i default).speed ∧
     ((generate_synthetic_flight_data today days s).getD i default).speed ≤ 500 ∧
     ((generate_synthetic_flight_data today days s).getD i default).transponder = "Active" ∧
     ((generate_synthetic_flight_data today days s).getD i default).pattern = "Standard transit") := by
  refine ⟨by simp [generate_synthetic_flight_data], ?_, ?_⟩
  · rw [generate_synthetic_flight_data, rangeMap_getD _ 5 0 (by norm_num)]
    simp only [flightRecordAt]
    norm_num
    exact ⟨randint_ge _ _ _, randint_le _ (by norm_num), randint_ge _ _ _,
      randint_le _ (by norm_num)⟩
  · intro i h1 h5
    rw [generate_synthetic_flight_data, rangeMap_getD _ 5 i h5]
    have hne : (i == 0) = false := by
      simp only [beq_eq_false_iff_ne]
      omega
    simp only [flightRecordAt, hne]
    norm_num
    exact ⟨randint_ge _ _ _, randint_le _ (by norm_num), randint_ge _ _ _,
      randint_le _ (by norm_num)⟩

/-- C2 witness: the amended theorem applied at a concrete input. -/
theorem C2_flight_generation_profiles_witness :
    (1 ≤ 2 ∧ 2 < 5) ∧
    (15000 ≤ ((generate_synthetic_flight_data 0 7 (fun k => k)).getD 2 default).altitude ∧
     ((generate_synthetic_flight_data 0 7 (fun k => k)).getD 2 default).altitude ≤ 35000 ∧
     350 ≤ ((generate_synthetic_flight_data 0 7 (fun k => k)).getD 2 default).speed ∧
     ((generate_synthetic_flight_data 0 7 (fun k => k)).getD 2 default).speed ≤ 500 ∧
     ((generate_synthetic_flight_data 0 7 (fun k => k)).getD 2 default).transponder = "Active" ∧
     ((generate_synthetic_flight_data 0 7 (fun k => k)).getD 2 default).pattern = "Standard transit") :=
  ⟨⟨by norm_num, by norm_num⟩,
   (C2_flight_generation_profiles 0 7 (fun k => k)).2.2 2 (by norm_num) (by norm_num)⟩

/-! ## C1 — provenance flags -/

theorem parseTweets_synthetic (url : String) (divs : List (Option RawTweet)) :
    ∀ p ∈ parseTweets url divs, p.synthetic = false := by
  intro p hp
  unfold parseTweets at hp
  rcases List.mem_filterMap.mp hp with ⟨d, _, hd⟩
  cases d with
  | none => simp at hd
  | some t =>
      simp only [Option.map_some'] at hd
      rw [← Option.some.injEq] at hd
      cases hd
      rfl

theorem scrapeLoop_synthetic (l : List (String × FetchOutcome)) :
    ∀ p ∈ scrapeLoop l, p.synthetic = false := by
  induction l with
  | nil => simp [scrapeLoop]
  | cons hd rest ih =>
      obtain ⟨url, outcome⟩ := hd
      cases outcome with
      | fail => simpa [scrapeLoop] using ih
      | ok divs =>
          by_cases h : divs.isEmpty
          · simpa [scrapeLoop, h] using ih
          · intro p hp
            simp only [scrapeLoop, h, if_neg] at hp
            exact parseTweets_synthetic url divs p hp

/-- C1: every record of each of the three synthetic generators carries
`synthetic = true`, and every post produced by the web fetcher carries
`synthetic = false` — whatever the area/base/term, window, draw stream and
network world. -/
theorem C1_synthetic_provenance :
    (∀ (today : Int) (days : Nat) (s : Nat → Nat),
       ∀ r ∈ generate_synthetic_flight_data today days s, r.synthetic = true) ∧
    (∀ (base_name : String) (today : Int) (days : Nat) (s : Nat → Nat),
       ∀ r ∈ generate_synthetic_military_data base_name today days s, r.synthetic = true) ∧
    (∀ (term : String) (today : Int) (days : Nat) (s : Nat → Nat),
       ∀ p ∈ generate_synthetic_social_media term today days s, p.synthetic = true) ∧
    (∀ world : String → FetchOutcome,
       ∀ p ∈ scrape_social_media world, p.synthetic = false) := by
  refine ⟨?_, ?_, ?_, ?_⟩
  · intro today days s r hr
    rcases rangeMap_mem hr with ⟨i, _, rfl⟩
    rfl
  · intro base_name today days s r hr
    rcases rangeMap_mem hr with ⟨i, _, rfl⟩
    rfl
  · intro term today days s p hp
    rcases rangeMap_mem hp with ⟨i, _, rfl⟩
    rfl
  · intro world p hp
    exact scrapeLoop_synthetic _ p hp

/-- A concrete raw tweet for the C1 witness. -/
def rawTweetW : RawTweet := { username := "u", content := "c", date := 0 }

/-- The post `parseTweets` builds from `rawTweetW` at the first endpoint. -/
def scrapedPostW : SocialPost :=
  { platform := "Twitter", user := "u", content := "c", date := 0, synthetic := false,
    source := "Nitter scrape via https://nitter.net" }

/-- C1 witness: the theorem applied to one concrete record of each kind. -/
theorem C1_synthetic_provenance_witness :
    (flightRecordAt 0 0 (fun _ => 0) 0 ∈ generate_synthetic_flight_data 0 0 (fun _ => 0) ∧
      (flightRecordAt 0 0 (fun _ => 0) 0).synthetic = true) ∧
    (militaryRecordAt "Sargodha Air Base" 0 0 (fun _ => 0) 0 ∈
        generate_synthetic_military_data "Sargodha Air Base" 0 0 (fun _ => 0) ∧
      (militaryRecordAt "Sargodha Air Base" 0 0 (fun _ => 0) 0).synthetic = true) ∧
    (socialPostAt firstLocationList "India Pakistan conflict" 0 0 (fun _ => 0) 0 ∈
        generate_synthetic_social_media "India Pakistan conflict" 0 0 (fun _ => 0) ∧
      (socialPostAt firstLocationList "India Pakistan conflict" 0 0 (fun _ => 0) 0).synthetic = true) ∧
    (scrapedPostW ∈ scrape_social_media (fun _ => FetchOutcome.ok [some rawTweetW]) ∧
      scrapedPostW.synthetic = false) := by
  have hf : flightRecordAt 0 0 (fun _ => 0) 0 ∈ generate_synthetic_flight_data 0 0 (fun _ => 0) :=
    List.mem_map.mpr ⟨0, by decide, rfl⟩
  have hm : militaryRecordAt "Sargodha Air Base" 0 0 (fun _ => 0) 0 ∈
      generate_synthetic_military_data "Sargodha Air Base" 0 0 (fun _ => 0) :=
    List.mem_map.mpr ⟨0, by decide, rfl⟩
  have hs : socialPostAt firstLocationList "India Pakistan conflict" 0 0 (fun _ => 0) 0 ∈
      generate_synthetic_social_media "India Pakistan conflict" 0 0 (fun _ => 0) :=
    List.mem_map.mpr ⟨0, by decide, rfl⟩
  have hw : scrapedPostW ∈ scrape_social_media (fun _ => FetchOutcome.ok [some rawTweetW]) := by
    decide
  exact ⟨⟨hf, C1_synthetic_provenance.1 0 0 (fun _ => 0) _ hf⟩,
         ⟨hm, C1_synthetic_provenance.2.1 "Sargodha Air Base" 0 0 (fun _ => 0) _ hm⟩,
         ⟨hs, C1_synthetic_provenance.2.2.1 "India Pakistan conflict" 0 0 (fun _ => 0) _ hs⟩,
         ⟨hw, C1_synthetic_provenance.2.2.2 _ _ hw⟩⟩

/-! ## C3 — social-media phase fallback policy -/

theorem socialTermStep_searchTerm (incl : Bool) (fetch gen : String → List SocialPost)
    (term : String) (r : SearchResult) (h : socialTermStep incl fetch gen term = some r) :
    r.search_term = term := by
  simp only [socialTermStep] at h
  by_cases hc : (if (fetch term).isEmpty && incl then gen term else fetch term).isEmpty
  · rw [if_pos hc] at h
    exact Option.noConfusion h
  · rw [if_neg hc] at h
    rw [← Option.some.injEq] at h
    cases h
    rfl

/-- C3: for every search term, (a) when the fetcher returns a non-empty list
the sub-record holds exactly the fetched posts and the step's result does not
depend on the generator at all (the generator is not consulted); (b) when the
fetcher returns nothing and synthetic mode is on, the generator's non-empty
output is recorded instead; (c) when both yield nothing (or synthetic mode is
off), the step produces no sub-record and no sub-record for that term appears
in the social-media collection. -/
theorem C3_social_phase_policy :
    (∀ (incl : Bool) (fetch gen₁ gen₂ : String → List SocialPost) (term : String),
        fetch term ≠ [] →
        socialTermStep incl fetch gen₁ term =
          some { search_term := term, results_count := (fetch term).length,
                 posts := fetch term } ∧
        socialTermStep incl fetch gen₁ term = socialTermStep incl fetch gen₂ term) ∧
    (∀ (fetch gen : String → List SocialPost) (term : String),
        fetch term = [] → gen term ≠ [] →
        socialTermStep true fetch gen term =
          some { search_term := term, results_count := (gen term).length,
                 posts := gen term }) ∧
    (∀ (incl : Bool) (fetch gen : String → List SocialPost) (term : String),
        fetch term = [] → (incl = false ∨ gen term = []) →
        socialTermStep incl fetch gen term = none ∧
        ∀ r ∈ analyze_social_media incl fetch gen, r.search_term ≠ term) := by
  refine ⟨?_, ?_, ?_⟩
  · intro incl fetch gen₁ gen₂ term h
    have he : (fetch term).isEmpty = false := by
      simp [List.isEmpty_iff, h]
    constructor <;> simp [socialTermStep, he]
  · intro fetch gen term hf hg
    have he : (gen term).isEmpty = false := by
      simp [List.isEmpty_iff, hg]
    simp [socialTermStep, hf, he]
  · intro incl fetch gen term hf hcase
    have hstep : socialTermStep incl fetch gen term = none := by
      rcases hcase with hincl | hgen
      · simp [socialTermStep, hf, hincl]
      · cases incl <;> simp [socialTermStep, hf, hgen]
    refine ⟨hstep, ?_⟩
    intro r hr heq
    rcases List.mem_filterMap.mp hr with ⟨t, _, ht⟩
    have : r.search_term = t := socialTermStep_searchTerm incl fetch gen t r ht
    rw [heq] at this
    rw [← this] at ht
    rw [hstep] at ht
    exact Option.noConfusion ht

/-- A concrete post for witnesses of the orchestration claims. -/
def samplePost : SocialPost :=
  { platform := "p", user := "a", content := "x", date := 0, synthetic := false, source := "s" }

/-- C3 witness: the three policy branches applied at concrete inputs. -/
theorem C3_social_phase_policy_witness :
    (socialTermStep true (fun _ => [samplePost]) (fun _ => []) "t" =
        some { search_term := "t", results_count := [samplePost].length,
               posts := [samplePost] }) ∧
    (socialTermStep true (fun _ => []) (fun _ => [samplePost]) "t" =
        some { search_term := "t", results_count := [samplePost].length,
               posts := [samplePost] }) ∧
    (socialTermStep true (fun _ => []) (fun _ => []) "t" = none ∧
      ∀ r ∈ analyze_social_media true (fun _ => []) (fun _ => []), r.search_term ≠ "t") := by
  refine ⟨?_, ?_, ?_⟩
  · exact (C3_social_phase_policy.1 true (fun _ => [samplePost]) (fun _ => [])
      (fun _ => []) "t" (by simp)).1
  · exact C3_social_phase_policy.2.1 (fun _ => []) (fun _ => [samplePost]) "t" rfl (by simp)
  · exact C3_social_phase_policy.2.2 true (fun _ => []) (fun _ => []) "t" rfl (Or.inr rfl)

/-! ## C4 — best-effort web fetcher endpoint policy -/

theorem parseTweets_length_le (url : String) (divs : List (Option RawTweet)) :
    (parseTweets url divs).length ≤ 10 := by
  unfold parseTweets
  calc ((divs.take 10).filterMap _).length ≤ (divs.take 10).length :=
        List.length_filterMap_le _ _
    _ ≤ 10 := List.length_take_le _ _

/-- C4: the fetcher visits the endpoints strictly in list order, skipping an
endpoint whose request fails (exception / non-200) or whose markup parses to
zero entries; the first endpoint with at least one entry determines the
result — the later endpoints are never consulted — and that result is its
parse, at most 10 posts; when every endpoint fails or parses to zero entries
the result is the empty list, not an error. -/
theorem C4_scraper_policy :
    (∀ (pre : List (String × FetchOutcome)) (url : String) (divs : List (Option RawTweet))
        (rest : List (String × FetchOutcome)),
        (∀ p ∈ pre, p.2 = FetchOutcome.fail ∨ p.2 = FetchOutcome.ok []) →
        divs ≠ [] →
        scrapeLoop (pre ++ (url, FetchOutcome.ok divs) :: rest) = parseTweets url divs) ∧
    (∀ resps : List (String × FetchOutcome), (scrapeLoop resps).length ≤ 10) ∧
    (∀ resps : List (String × FetchOutcome),
        (∀ p ∈ resps, p.2 = FetchOutcome.fail ∨ p.2 = FetchOutcome.ok []) →
        scrapeLoop resps = []) := by
  have hempty : ∀ (divs : List (Option RawTweet)), divs ≠ [] → divs.isEmpty = false := by
    intro divs h
    simp [List.isEmpty_iff, h]
  refine ⟨?_, ?_, ?_⟩
  · intro pre url divs rest hpre hdivs
    induction pre with
    | nil => simp [scrapeLoop, hempty divs hdivs]
    | cons p pre ih =>
        obtain ⟨u, o⟩ := p
        rcases hpre ⟨u, o⟩ (List.mem_cons_self _ _) with ho | ho <;> subst ho
        · exact ih (fun q hq => hpre q (List.mem_cons_of_mem _ hq))
        · simpa [scrapeLoop] using ih (fun q hq => hpre q (List.mem_cons_of_mem _ hq))
  · intro resps
    induction resps with
    | nil => simp [scrapeLoop]
    | cons p rest ih =>
        obtain ⟨u, o⟩ := p
        cases o with
        | fail => simpa [scrapeLoop] using ih
        | ok divs =>
            by_cases h : divs.isEmpty
            · simpa [scrapeLoop, h] using ih
            · simpa [scrapeLoop, h] using parseTweets_length_le u divs
  · intro resps hall
    induction resps with
    | nil => rfl
    | cons p rest ih =>
        obtain ⟨u, o⟩ := p
        rcases hall ⟨u, o⟩ (List.mem_cons_self _ _) with ho | ho <;> subst ho
        · exact ih (fun q hq => hall q (List.mem_cons_of_mem _ hq))
        · simpa [scrapeLoop] using ih (fun q hq => hall q (List.mem_cons_of_mem _ hq))

/-- A concrete raw tweet for the C4 witness. -/
def rawTweetB : RawTweet := { username := "v", content := "d", date := 1 }

/-- C4 witness: the policy applied to a concrete world where the first
endpoint fails, the second succeeds with one entry and the third is never
reached; and to a world where every endpoint fails or parses empty. -/
theorem C4_scraper_policy_witness :
    scrapeLoop ([("a", FetchOutcome.fail)] ++
        ("b", FetchOutcome.ok [some rawTweetB]) :: [("c", FetchOutcome.ok [])]) =
      parseTweets "b" [some rawTweetB] ∧
    (scrapeLoop [("a", FetchOutcome.fail), ("c", FetchOutcome.ok [])]).length ≤ 10 ∧
    scrapeLoop [("a", FetchOutcome.fail), ("c", FetchOutcome.ok [])] = [] :=
  ⟨C4_scraper_policy.1 [("a", FetchOutcome.fail)] "b" [some rawTweetB]
      [("c", FetchOutcome.ok [])] (by decide) (by simp),
   C4_scraper_policy.2.1 [("a", FetchOutcome.fail), ("c", FetchOutcome.ok [])],
   C4_scraper_policy.2.2 [("a", FetchOutcome.fail), ("c", FetchOutcome.ok [])] (by decide)⟩

/-! ## C5 — per-entry exception handling across the phases -/

/-- C5 counterexample: the flight-phase loop has no per-entry handler, so a
body that raises on the first `areas` entry aborts the whole phase with that
error instead of skipping the entry and continuing — contrast with the
satellite loop shape, which on the very same body skips the failing entry
and still processes the remaining two areas. -/
theorem C5_flight_phase_no_catch_cex :
    uncaughtPhaseLoop
        (fun a => if a.1 = "Kahuta Region" then Except.error "boom" else Except.ok a.1)
        areas [] = Except.error "boom" ∧
    uncaughtPhaseLoop
        (fun a => if a.1 = "Kahuta Region" then Except.error "boom" else Except.ok a.1)
        areas [] ≠
      Except.ok ["Rawalpindi Air Base", "Indian Border Area (Punjab)"] ∧
    satellitePhaseLoop
        (fun a => if a.1 = "Kahuta Region" then Except.error "boom" else Except.ok a.1)
        areas = ["Rawalpindi Air Base", "Indian Border Area (Punjab)"] := by
  have h1 : uncaughtPhaseLoop
      (fun a : String × String =>
        if a.1 = "Kahuta Region" then Except.error "boom" else Except.ok a.1)
      areas [] = Except.error "boom" := by rfl
  refine ⟨h1, ?_, by rfl⟩
  rw [h1]
  intro h
  exact Except.noConfusion h

/-- C5 (amended: only the satellite loop catches per-entry exceptions; the
flight, military and social loops have no per-entry handler, so an exception
raised in their bodies aborts the phase — though their bodies only fail
inside the web fetch, whose errors the fetcher catches internally): for every
entry table and every fallible body, the satellite loop shape returns exactly
the results of the succeeding entries, in order, skipping the failing ones;
and a loop of the flight/military/social shape completes if and only if every
entry's body succeeds. -/
theorem C5_phase_exception_structure :
    (∀ (α R : Type) (body : α → Except String R) (entries : List α),
        satellitePhaseLoop body entries =
          entries.filterMap (fun e => (body e).toOption)) ∧
    (∀ (α R : Type) (body : α → Except String R) (entries : List α) (acc : List R),
        (∃ res, uncaughtPhaseLoop body entries acc = Except.ok res) ↔
          ∀ e ∈ entries, ∃ r, body e = Except.ok r) := by
  constructor
  · intro α R body entries
    induction entries with
    | nil => rfl
    | cons e rest ih =>
        cases hbe : body e with
        | ok r => simp [satellitePhaseLoop, hbe, ih, Except.toOption]
        | error msg => simp [satellitePhaseLoop, hbe, ih, Except.toOption]
  · intro α R body entries
    induction entries with
    | nil => simp [uncaughtPhaseLoop]
    | cons e rest ih =>
        intro acc
        cases hbe : body e with
        | ok r =>
            constructor
            · intro hres f hf
              rcases List.mem_cons.mp hf with rfl | hf
              · exact ⟨r, hbe⟩
              · rcases hres with ⟨res, hres⟩
                simp only [uncaughtPhaseLoop, hbe] at hres
                exact ((ih (acc ++ [r])).mp ⟨res, hres⟩) f hf
            · intro hall
              rcases (ih (acc ++ [r])).mpr
                  (fun f hf => hall f (List.mem_cons_of_mem _ hf)) with ⟨res, hres⟩
              exact ⟨res, by simp only [uncaughtPhaseLoop, hbe]; exact hres⟩
        | error msg =>
            constructor
            · intro hres
              rcases hres with ⟨res, hres⟩
              simp only [uncaughtPhaseLoop, hbe] at hres
              exact Except.noConfusion hres
            · intro hall
              rcases hall e (List.mem_cons_self _ _) with ⟨r, hr⟩
              rw [hbe] at hr
              exact Except.noConfusion hr

/-- A satellite-phase body that fails on exactly one site, for the C5 witness. -/
def siteBodyW (site : String) : Except String String :=
  if site = "Khushab Nuclear Complex" then Except.error "e" else Except.ok site

/-- A total military-phase body, for the C5 witness. -/
def baseBodyW (b : String × String) : Except String String := Except.ok b.1

/-- C5 witness: the amended theorem applied to the concrete `nuclear_sites`
and `bases` tables. -/
theorem C5_phase_exception_structure_witness :
    satellitePhaseLoop siteBodyW nuclear_sites =
      nuclear_sites.filterMap (fun site => (siteBodyW site).toOption) ∧
    ((∃ res, uncaughtPhaseLoop baseBodyW bases [] = Except.ok res) ↔
      ∀ b ∈ bases, ∃ r, baseBodyW b = Except.ok r) :=
  ⟨C5_phase_exception_structure.1 String String siteBodyW nuclear_sites,
   C5_phase_exception_structure.2 (String × String) String baseBodyW bases []⟩

/-! ## C6 — date range of the request and of every synthetic record -/

/-- C6: the analysis end date is the current day and the start date is the
current day minus the lookback window (dates modelled as day numbers, the
`YYYY-MM-DD` rendering of an instant being abstracted to its day number);
and every record of the three synthetic generators has its date inside
`[start_date, end_date]` inclusive. -/
theorem C6_date_range :
    (∀ cfg : RunConfig,
        end_date cfg = cfg.today ∧ start_date cfg = cfg.today - Int.ofNat cfg.days) ∧
    (∀ (cfg : RunConfig) (s : Nat → Nat),
        ∀ r ∈ generate_synthetic_flight_data cfg.today cfg.days s,
          start_date cfg ≤ r.date ∧ r.date ≤ end_date cfg) ∧
    (∀ (cfg : RunConfig) (base : String) (s : Nat → Nat),
        ∀ r ∈ generate_synthetic_military_data base cfg.today cfg.days s,
          start_date cfg ≤ r.date ∧ r.date ≤ end_date cfg) ∧
    (∀ (cfg : RunConfig) (term : String) (s : Nat → Nat),
        ∀ p ∈ generate_synthetic_social_media term cfg.today cfg.days s,
          start_date cfg ≤ p.date ∧ p.date ≤ end_date cfg) := by
  refine ⟨fun cfg => ⟨rfl, rfl⟩, ?_, ?_, ?_⟩
  · intro cfg s r hr
    rcases rangeMap_mem hr with ⟨i, _, rfl⟩
    exact synthDate_mem cfg.today cfg.days (s (4 * i))
  · intro cfg base s r hr
    rcases rangeMap_mem hr with ⟨i, _, rfl⟩
    exact synthDate_mem cfg.today cfg.days (s (2 * i + 1))
  · intro cfg term s p hp
    rcases rangeMap_mem hp with ⟨i, _, rfl⟩
    exact synthDate_mem cfg.today cfg.days (s (10 * i + 8))

/-- The run configuration used by the C6 witness. -/
def cfgW : RunConfig := { claim := "c", days := 2, include_synthetic := true, today := 5 }

/-- C6 witness: the theorem applied to one concrete record of each generator. -/
theorem C6_date_range_witness :
    (flightRecordAt 5 2 (fun _ => 1) 0 ∈ generate_synthetic_flight_data 5 2 (fun _ => 1) ∧
      start_date cfgW ≤ (flightRecordAt 5 2 (fun _ => 1) 0).date ∧
      (flightRecordAt 5 2 (fun _ => 1) 0).date ≤ end_date cfgW) ∧
    (militaryRecordAt "b" 5 2 (fun _ => 1) 0 ∈
        generate_synthetic_military_data "b" 5 2 (fun _ => 1) ∧
      start_date cfgW ≤ (militaryRecordAt "b" 5 2 (fun _ => 1) 0).date ∧
      (militaryRecordAt "b" 5 2 (fun _ => 1) 0).date ≤ end_date cfgW) ∧
    (socialPostAt firstLocationList "t" 5 2 (fun _ => 1) 0 ∈
        generate_synthetic_social_media "t" 5 2 (fun _ => 1) ∧
      start_date cfgW ≤ (socialPostAt firstLocationList "t" 5 2 (fun _ => 1) 0).date ∧
      (socialPostAt firstLocationList "t" 5 2 (fun _ => 1) 0).date ≤ end_date cfgW) := by
  have hf : flightRecordAt 5 2 (fun _ => 1) 0 ∈ generate_synthetic_flight_data 5 2 (fun _ => 1) :=
    List.mem_map.mpr ⟨0, by decide, rfl⟩
  have hm : militaryRecordAt "b" 5 2 (fun _ => 1) 0 ∈
      generate_synthetic_military_data "b" 5 2 (fun _ => 1) :=
    List.mem_map.mpr ⟨0, by decide, rfl⟩
  have hs : socialPostAt firstLocationList "t" 5 2 (fun _ => 1) 0 ∈
      generate_synthetic_social_media "t" 5 2 (fun _ => 1) :=
    List.mem_map.mpr ⟨0, by decide, rfl⟩
  exact ⟨⟨hf, C6_date_range.2.1 cfgW (fun _ => 1) _ hf⟩,
         ⟨hm, C6_date_range.2.2.1 cfgW "b" (fun _ => 1) _ hm⟩,
         ⟨hs, C6_date_range.2.2.2 cfgW "t" (fun _ => 1) _ hs⟩⟩

/-! ## C7 — synthetic military generation -/

/-- C7: military generation always yields exactly 5 records; every record's
activity type and significance are one of the five fixed category pairs
(Normal operations/Low, Training exercise/Low, Increased readiness/Medium,
Alert status change/Medium, Unusual deployment/High); the confidence field
is always the fixed string; and the weighted draw embedding
`random.choices(activities, weights=[0.4, 0.3, 0.15, 0.1, 0.05])` gives the
five categories exactly 40, 30, 15, 10 and 5 of the 100 equiprobable draw
values. -/
theorem C7_military_generation :
    (∀ (base : String) (today : Int) (days : Nat) (s : Nat → Nat),
        (generate_synthetic_military_data base today days s).length = 5) ∧
    (∀ (base : String) (today : Int) (days : Nat) (s : Nat → Nat),
        ∀ r ∈ generate_synthetic_military_data base today days s,
          (r.type, r.significance) ∈ activities ∧
          r.confidence = "Medium - requires verification" ∧
          r.description = r.type ++ " observed at " ++ base) ∧
    (∀ u : Nat, weightedIndex u < 5) ∧
    ((Finset.range 100).filter (fun u => weightedIndex u = 0)).card = 40 ∧
    ((Finset.range 100).filter (fun u => weightedIndex u = 1)).card = 30 ∧
    ((Finset.range 100).filter (fun u => weightedIndex u = 2)).card = 15 ∧
    ((Finset.range 100).filter (fun u => weightedIndex u = 3)).card = 10 ∧
    ((Finset.range 100).filter (fun u => weightedIndex u = 4)).card = 5 := by
  have hidx : ∀ u : Nat, weightedIndex u < 5 := by
    intro u
    unfold weightedIndex
    split
    · omega
    · split
      · omega
      · split
        · omega
        · split <;> omega
  refine ⟨?_, ?_, hidx, by decide, by decide, by decide, by decide, by decide⟩
  · intro base today days s
    simp [generate_synthetic_military_data]
  · intro base today days s r hr
    rcases rangeMap_mem hr with ⟨i, _, rfl⟩
    refine ⟨?_, rfl, rfl⟩
    have h5 : weightedIndex (s (2 * i)) < activities.length := hidx _
    show activities.getD (weightedIndex (s (2 * i))) ("", "") ∈ activities
    rw [List.getD_eq_getElem _ _ h5]
    exact activities.getElem_mem h5

/-- C7 witness: the theorem applied to one concrete record. -/
theorem C7_military_generation_witness :
    militaryRecordAt "Kamra Air Base" 0 3 (fun _ => 7) 0 ∈
      generate_synthetic_military_data "Kamra Air Base" 0 3 (fun _ => 7) ∧
    ((militaryRecordAt "Kamra Air Base" 0 3 (fun _ => 7) 0).type,
      (militaryRecordAt "Kamra Air Base" 0 3 (fun _ => 7) 0).significance) ∈ activities ∧
    (militaryRecordAt "Kamra Air Base" 0 3 (fun _ => 7) 0).confidence =
      "Medium - requires verification" ∧
    (militaryRecordAt "Kamra Air Base" 0 3 (fun _ => 7) 0).description =
      (militaryRecordAt "Kamra Air Base" 0 3 (fun _ => 7) 0).type
        ++ " observed at " ++ "Kamra Air Base" := by
  have hm : militaryRecordAt "Kamra Air Base" 0 3 (fun _ => 7) 0 ∈
      generate_synthetic_military_data "Kamra Air Base" 0 3 (fun _ => 7) :=
    List.mem_map.mpr ⟨0, by decide, rfl⟩
  exact ⟨hm, C7_military_generation.2.1 "Kamra Air Base" 0 3 (fun _ => 7) _ hm⟩

/-! ## C8 — the duplicated `location` value list -/

/-- C8: in the `variables` dict literal the `"location"` key is bound twice
and the second binding silently shadows the first: however the first list is
chosen, the dict the substitution loop iterates is the literal's entries with
the first six keys and with `"location"` mapped to the second list
(`dropLast` of the literal built over the second list); every `{location}`
substitution therefore draws its value from the second list (whose members
the choice embedding always picks), and the generator's output is entirely
independent of the first list. -/
theorem C8_location_shadowing :
    (∀ firstLoc : List String,
        variablesDict firstLoc = (variablesLiteral secondLocationList).dropLast) ∧
    (∀ d : Nat, pychoice secondLocationList d ∈ secondLocationList) ∧
    (∀ (l₁ l₂ : List String) (term : String) (today : Int) (days : Nat) (s : Nat → Nat),
        generate_synthetic_social_mediaVia l₁ term today days s =
          generate_synthetic_social_mediaVia l₂ term today days s) ∧
    (∀ (term : String) (today : Int) (days : Nat) (s : Nat → Nat),
        generate_synthetic_social_media term today days s =
          generate_synthetic_social_mediaVia secondLocationList term today days s) := by
  have hdict : ∀ firstLoc : List String,
      variablesDict firstLoc = (variablesLiteral secondLocationList).dropLast := by
    intro firstLoc
    rfl
  have hvia : ∀ (l₁ l₂ : List String) (term : String) (today : Int) (days : Nat)
      (s : Nat → Nat),
      generate_synthetic_social_mediaVia l₁ term today days s =
        generate_synthetic_social_mediaVia l₂ term today days s := by
    intro l₁ l₂ term today days s
    have h : variablesDict l₁ = variablesDict l₂ := by rw [hdict l₁, hdict l₂]
    unfold generate_synthetic_social_mediaVia
    apply List.map_congr_left
    intro i _
    unfold socialPostAt
    rw [h]
  exact ⟨hdict, fun d => pychoice_mem _ d (by simp [secondLocationList]), hvia,
    fun term today days s => hvia firstLocationList secondLocationList term today days s⟩

/-! ## C9 — summary post count equals the sum of `results_count` -/

theorem socialTermStep_count (incl : Bool) (fetch gen : String → List SocialPost)
    (term : String) (r : SearchResult) (h : socialTermStep incl fetch gen term = some r) :
    r.results_count = r.posts.length := by
  simp only [socialTermStep] at h
  by_cases hc : (if (fetch term).isEmpty && incl then gen term else fetch term).isEmpty
  · rw [if_pos hc] at h
    exact Option.noConfusion h
  · rw [if_neg hc] at h
    rw [← Option.some.injEq] at h
    cases h
    rfl

/-- C9: the `social_posts` total interpolated into the text summary is the
sum of the `results_count` fields over the social-media sub-records of the
run's result structure (the structure serialized as the JSON output); for
results produced by the social-media phase it also equals the total number
of posts stored, and the rendering of exactly that sum appears in the
summary text. -/
theorem C9_summary_post_count :
    (∀ social : List SearchResult,
        socialPostsCount social = (social.map SearchResult.results_count).sum) ∧
    (∀ (incl : Bool) (fetch gen : String → List SocialPost),
        socialPostsCount (analyze_social_media incl fetch gen) =
          ((analyze_social_media incl fetch gen).map (fun sr => sr.posts.length)).sum) ∧
    (∀ (cfg : RunConfig) (r : Results),
        (toString ((r.social_media.map SearchResult.results_count).sum)).data <:+:
          (summaryText cfg r).data) := by
  have hsum : ∀ social : List SearchResult,
      socialPostsCount social = (social.map SearchResult.results_count).sum := by
    intro social
    cases social with
    | nil => rfl
    | cons a l => simp [socialPostsCount]
  refine ⟨hsum, ?_, ?_⟩
  · intro incl fetch gen
    rw [hsum]
    congr 1
    apply List.map_congr_left
    intro sr hsr
    rcases List.mem_filterMap.mp hsr with ⟨t, _, ht⟩
    exact socialTermStep_count incl fetch gen t sr ht
  · intro cfg r
    rw [← hsum]
    exact ⟨(summaryHeader cfg r).data,
      (summaryFindings ++ "CONCLUSION:\n" ++ conclusionSentence ++ "\n" ++ summaryAdvice).data,
      by simp [summaryText, String.data_append]⟩

/-! ## C10 — the CONCLUSION verdict is a constant -/

/-- C10: for every run configuration and every accumulated result structure —
whatever the claim text, the window, the synthetic flag, or the collected and
generated data — the text summary contains, directly under the CONCLUSION
header, the identical fixed sentence; the verdict does not depend on any
input. -/
theorem C10_conclusion_constant :
    ∀ (cfg : RunConfig) (r : Results),
      ("CONCLUSION:\n" ++ conclusionSentence ++ "\n").data <:+: (summaryText cfg r).data := by
  intro cfg r
  exact ⟨(summaryHeader cfg r ++ toString (socialPostsCount r.social_media)
      ++ summaryFindings).data,
    summaryAdvice.data,
    by simp [summaryText, String.data_append]⟩

end TruthScan
